import Mathlib

/-!
Shallow embedding of the Crypto Price ETL pipeline (`main.py`).

The program has three stages composed by a driver:
  * `extract_data`  : one HTTP GET to the CoinGecko markets endpoint,
    `raise_for_status`, then JSON decoding of the body;
  * `transform_data`: `pd.DataFrame(data, columns=[...])`, a column rename,
    and a `timestamp` column computed once via `datetime.now().strftime`;
  * `load_data`     : `df.to_csv(path, index=False)` to a fixed path.

Modelling choices, each noted at its definition:
  * a JSON value in a record cell is a string, a number (`ℚ`; float
    shortest-round-trip printing is modelled as exact decimal printing,
    no claim depends on the numeric text), a boolean, or pandas `NaN`;
  * the HTTP layer is a function from the (single, fixed) request to an
    outcome: a transport failure, or a response with a status code and a
    body that either decodes to a list of records or is malformed;
  * the filesystem is a map from paths to contents plus a writability
    predicate; a write either fully succeeds or fails leaving the map
    unchanged;
  * wall-clock time is a `DateTime` argument threaded to the transform,
    sampled once per driver run as in the source; the elapsed-duration
    interpolation in the final log line is elided (real time).
-/

namespace CryptoETL

/-- A cell value as pandas sees it after JSON decoding: strings, numbers,
booleans, and the `NaN` used for a missing field. -/
inductive Cell where
  | str (s : String)
  | num (q : ℚ)
  | boolean (b : Bool)
  | nan
  deriving DecidableEq, Repr

/-- One JSON object from the API response: an association list from field
names to values (Python dict; first binding wins on lookup). -/
def MarketRecord : Type := List (String × Cell)

instance : DecidableEq MarketRecord := by
  unfold MarketRecord
  infer_instance

/-- A pandas DataFrame: ordered column labels and the rows, each row one
cell per column. -/
structure DataFrame where
  columns : List String
  rows : List (List Cell)
  deriving DecidableEq, Repr

/-- Model of `pd.DataFrame(data, columns=cols)` for a list of dicts: one row per
dict in order; a selected key missing from a dict yields `NaN`; keys not
selected are dropped. -/
def pdDataFrame (data : List MarketRecord) (cols : List String) : DataFrame :=
  { columns := cols,
    rows := data.map (fun r => cols.map (fun c => (List.lookup c r).getD Cell.nan)) }

/-- Model of `df.rename(columns=m)`: relabels columns through the mapping, leaving
labels not in the mapping unchanged; rows untouched. -/
def pdRename (df : DataFrame) (m : List (String × String)) : DataFrame :=
  { columns := df.columns.map (fun c => (List.lookup c m).getD c),
    rows := df.rows }

/-- Model of `df[name] = v` for a scalar `v` and a fresh label: appends the column
and broadcasts the scalar to every row. -/
def pdAddColumn (df : DataFrame) (name : String) (v : Cell) : DataFrame :=
  { columns := df.columns ++ [name],
    rows := df.rows.map (fun r => r ++ [v]) }

/-- Local wall-clock reading (`datetime.now()`). -/
structure DateTime where
  year : Nat
  month : Nat
  day : Nat
  hour : Nat
  minute : Nat
  second : Nat
  deriving DecidableEq, Repr

/-- The invariants Python's `datetime` guarantees for `now()` (year range
restricted to four digits, where `%Y` pads to exactly four). -/
def DateTime.valid (t : DateTime) : Prop :=
  1000 ≤ t.year ∧ t.year ≤ 9999 ∧ 1 ≤ t.month ∧ t.month ≤ 12 ∧
    1 ≤ t.day ∧ t.day ≤ 31 ∧ t.hour ≤ 23 ∧ t.minute ≤ 59 ∧ t.second ≤ 59

instance (t : DateTime) : Decidable t.valid := by
  unfold DateTime.valid
  infer_instance

/-- The character for the decimal digit `n % 10`. -/
def digitChar (n : Nat) : Char := Char.ofNat (48 + n % 10)

/-- Two-digit zero-padded field (`%m`, `%d`, `%H`, `%M`, `%S`). -/
def pad2 (n : Nat) : List Char := [digitChar (n / 10), digitChar n]

/-- Four-digit zero-padded field (`%Y` for four-digit years). -/
def pad4 (n : Nat) : List Char :=
  [digitChar (n / 1000), digitChar (n / 100), digitChar (n / 10), digitChar n]

/-- Model of `datetime.now().strftime("%Y-%m-%d %H:%M:%S")`. -/
def strftimeYmdHMS (t : DateTime) : String :=
  ⟨pad4 t.year ++ '-' :: pad2 t.month ++ '-' :: pad2 t.day ++
    ' ' :: pad2 t.hour ++ ':' :: pad2 t.minute ++ ':' :: pad2 t.second⟩

/-- Recogniser for the spec's `YYYY-MM-DD HH:MM:SS` shape: 19 characters,
digits in the date/time positions, the literal separators elsewhere. -/
def matchesTimestamp (s : String) : Bool :=
  match s.data with
  | [y1, y2, y3, y4, d1, m1, m2, d2, a1, a2, sp, h1, h2, c1, n1, n2, c2, s1, s2] =>
      y1.isDigit && y2.isDigit && y3.isDigit && y4.isDigit && (d1 == '-') &&
      m1.isDigit && m2.isDigit && (d2 == '-') && a1.isDigit && a2.isDigit &&
      (sp == ' ') && h1.isDigit && h2.isDigit && (c1 == ':') &&
      n1.isDigit && n2.isDigit && (c2 == ':') && s1.isDigit && s2.isDigit
  | _ => false

/-- The five source columns selected in `pd.DataFrame(data, columns=[...])`. -/
def sourceColumns : List String :=
  ["id", "symbol", "current_price", "market_cap", "total_volume"]

/-- The rename mapping passed to `df.rename`. -/
def renameMap : List (String × String) :=
  [("id", "crypto_name"), ("symbol", "symbol"), ("current_price", "price_usd"),
   ("market_cap", "market_cap_usd"), ("total_volume", "volume_usd")]

/-- Log line severities used by the program. -/
inductive LogLevel where
  | info
  | error
  deriving DecidableEq, Repr

/-- One line of `logs/crypto_etl.log` (the `asctime` column is elided:
real time, orthogonal to every claim). -/
structure LogEntry where
  level : LogLevel
  msg : String
  deriving DecidableEq, Repr

/-- The Transformer, `transform_data`: select the five source columns (missing keys become
`NaN` — pandas raises no error for them), rename, then stamp every row
with one timestamp string computed once from the single clock sample. -/
def transform_data (data : List MarketRecord) (now : DateTime) :
    DataFrame × List LogEntry :=
  let df := pdDataFrame data sourceColumns
  let df := pdRename df renameMap
  let df := pdAddColumn df "timestamp" (Cell.str (strftimeYmdHMS now))
  (df, [⟨.info, "Data transformation successful."⟩])

/-- Errors a run can surface, one constructor per underlying Python
exception class reaching a `try` block. -/
inductive PipeError where
  | requestError (cause : String)
  | httpError (status : Nat)
  | jsonDecodeError
  | ioError (path : String)
  deriving DecidableEq, Repr

/-- Text of `str(e)` for the exception behind each error, as interpolated into the
log line (the model keeps the discriminating part of each message). -/
def PipeError.message : PipeError → String
  | .requestError c => c
  | .httpError st =>
      toString st ++ (if st < 500 then " Client Error" else " Server Error")
  | .jsonDecodeError => "Expecting value"
  | .ioError p => "Permission denied: " ++ p

/-- An outbound HTTP request: URL and query parameters. -/
structure Request where
  url : String
  params : List (String × String)
  deriving DecidableEq, Repr

/-- The one request `extract_data` builds: fixed URL, fixed parameters,
nothing read from arguments, flags, or environment. -/
def apiRequest : Request :=
  { url := "https://api.coingecko.com/api/v3/coins/markets",
    params := [("vs_currency", "usd"), ("order", "market_cap_desc"),
               ("per_page", "10"), ("page", "1"), ("sparkline", "false")] }

/-- What the network returns for a request: a transport-level failure
(`requests` raised before any response), or a response with a status code
and a body. The body is pre-classified: `some records` when it is a
well-formed JSON array of objects, `none` when `response.json()` would
raise `JSONDecodeError`. -/
inductive HttpOutcome where
  | netFailure (cause : String)
  | response (status : Nat) (body : Option (List MarketRecord))

/-- The Fetcher, `extract_data`: issue the fixed request, `raise_for_status` (which
raises exactly for statuses in 400..599), decode the body; any exception
is logged at ERROR with its cause and re-raised unchanged. -/
def extract_data (api : Request → HttpOutcome) :
    Except PipeError (List MarketRecord) × List LogEntry :=
  match api apiRequest with
  | .netFailure c =>
      (.error (.requestError c),
       [⟨.error, "Error in data extraction: " ++ (PipeError.requestError c).message⟩])
  | .response st body =>
      if 400 ≤ st ∧ st < 600 then
        (.error (.httpError st),
         [⟨.error, "Error in data extraction: " ++ (PipeError.httpError st).message⟩])
      else
        match body with
        | none =>
            (.error .jsonDecodeError,
             [⟨.error, "Error in data extraction: " ++ PipeError.jsonDecodeError.message⟩])
        | some data => (.ok data, [⟨.info, "Data extraction successful."⟩])

/-- Decimal rendering of a cell's number. JSON numbers arrive as Python
floats and pandas prints them with a trailing `.0` when integral; the
shortest-round-trip float rendering is modelled as exact decimal printing
(no claim depends on the numeric text). -/
def formatNum (q : ℚ) : String :=
  if q.den = 1 then toString q.num ++ ".0"
  else toString q.num ++ "/" ++ toString q.den

/-- The text `to_csv` puts in one field before quoting; `NaN` prints as
the empty field (default `na_rep`). -/
def showCell : Cell → String
  | .str s => s
  | .num q => formatNum q
  | .boolean b => if b then "True" else "False"
  | .nan => ""

/-- Double every quote character (CSV escaping inside a quoted field). -/
def escapeQuotes (s : String) : String :=
  ⟨s.data.foldr (fun c acc => if c = '"' then '"' :: '"' :: acc else c :: acc) []⟩

/-- Minimal quoting (`csv.QUOTE_MINIMAL`, pandas default): quote a field
iff it holds a delimiter, a quote, or a line break. -/
def csvField (s : String) : String :=
  if s.data.contains ',' || s.data.contains '"' || s.data.contains '\n' || s.data.contains '\r' then
    "\"" ++ escapeQuotes s ++ "\""
  else s

/-- One CSV line: comma-separated quoted fields plus the terminator. -/
def csvLine (fields : List String) : String :=
  String.intercalate "," (fields.map csvField) ++ "\n"

/-- Model of `df.to_csv(..., index=False)`: the header line from the column labels
followed by one line per row, in row order. -/
def to_csv (df : DataFrame) : String :=
  csvLine df.columns ++ String.join (df.rows.map (fun r => csvLine (r.map showCell)))

/-- The fixed destination path (`data/crypto_data.csv` under the program
directory). -/
def outputFile : String := "data/crypto_data.csv"

/-- The filesystem visible to the Writer: contents by path, plus which
paths the process may (re)write. -/
structure FileSystem where
  contents : String → Option String
  writable : String → Bool

/-- Opening a path for writing and writing the whole text: truncates and
replaces on success (creating the file when absent); on an I/O error the
previous contents stay untouched. -/
def FileSystem.write (fs : FileSystem) (path text : String) :
    Except PipeError Unit × FileSystem :=
  if fs.writable path then
    (.ok (),
     { fs with contents := fun p => if p = path then some text else fs.contents p })
  else
    (.error (.ioError path), fs)

/-- The Writer, `load_data`: serialize the DataFrame and write it to the fixed path;
an I/O exception is logged at ERROR with its cause and re-raised. -/
def load_data (df : DataFrame) (fs : FileSystem) :
    Except PipeError Unit × List LogEntry × FileSystem :=
  match fs.write outputFile (to_csv df) with
  | (.ok _, fs') =>
      (.ok (), [⟨.info, "Data loading successful. Data saved to " ++ outputFile⟩], fs')
  | (.error e, fs') =>
      (.error e, [⟨.error, "Error in data loading: " ++ e.message⟩], fs')

/-- The Driver, `etl_process`: extract, transform, load in strict sequence; the first
failing stage's exception propagates unchanged and ends the run (the
duration interpolation of the final log line is elided). -/
def etl_process (api : Request → HttpOutcome) (now : DateTime) (fs : FileSystem) :
    Except PipeError Unit × List LogEntry × FileSystem :=
  let startLog : List LogEntry := [⟨.info, "ETL process started."⟩]
  match extract_data api with
  | (.error e, lg) => (.error e, startLog ++ lg, fs)
  | (.ok data, lg1) =>
      match transform_data data now with
      | (df, lg2) =>
          match load_data df fs with
          | (.ok _, lg3, fs') =>
              (.ok (), startLog ++ lg1 ++ lg2 ++ lg3 ++
                 [⟨.info, "ETL process completed."⟩], fs')
          | (.error e, lg3, fs') => (.error e, startLog ++ lg1 ++ lg2 ++ lg3, fs')

def t0 : DateTime := ⟨2026, 10, 12, 9, 30, 5⟩

def recMissingVolume : MarketRecord :=
  [("id", .str "bitcoin"), ("symbol", .str "btc"), ("current_price", .num 65000),
   ("market_cap", .num 1200000000000)]

def fs0 : FileSystem := { contents := fun _ => none, writable := fun _ => true }

def dfEx : DataFrame := (transform_data [recMissingVolume] t0).1

/-- The situations §4.1 should call an extraction failure, as the code
actually detects them: a transport failure, a 4xx/5xx status (the only
statuses `raise_for_status` raises for), or a body `response.json()`
cannot decode. -/
def failCondition : HttpOutcome → Prop
  | .netFailure _ => True
  | .response st body => (400 ≤ st ∧ st < 600) ∨ body = none

/-- The error `extract_data` surfaces for a failing outcome (first check
wins: status before body, as in the source's statement order). -/
def errorOf : HttpOutcome → PipeError
  | .netFailure c => .requestError c
  | .response st _ => if 400 ≤ st ∧ st < 600 then .httpError st else .jsonDecodeError

def apiNetFail : Request → HttpOutcome := fun _ => .netFailure "Connection timed out"

def api300 : Request → HttpOutcome := fun _ => .response 300 (some [])

def apiOkOneRecord : Request → HttpOutcome :=
  fun _ => .response 200 (some [recMissingVolume])

lemma digitChar_isDigit (n : Nat) : (digitChar n).isDigit = true := by
  unfold digitChar
  have h : n % 10 < 10 := Nat.mod_lt _ (by decide)
  revert h
  generalize n % 10 = k
  intro h
  interval_cases k <;> decide

lemma strftime_matchesTimestamp (t : DateTime) :
    matchesTimestamp (strftimeYmdHMS t) = true := by
  simp [strftimeYmdHMS, pad4, pad2, matchesTimestamp, digitChar_isDigit]

lemma transform_rows_eq (data : List MarketRecord) (now : DateTime) :
    (transform_data data now).1.rows =
      data.map (fun r =>
        [(List.lookup "id" r).getD Cell.nan,
         (List.lookup "symbol" r).getD Cell.nan,
         (List.lookup "current_price" r).getD Cell.nan,
         (List.lookup "market_cap" r).getD Cell.nan,
         (List.lookup "total_volume" r).getD Cell.nan,
         Cell.str (strftimeYmdHMS now)]) := by
  simp [transform_data, pdDataFrame, pdRename, pdAddColumn, sourceColumns]

lemma csvHeaderLine :
    csvLine ["crypto_name", "symbol", "price_usd", "market_cap_usd", "volume_usd",
      "timestamp"] =
      "crypto_name,symbol,price_usd,market_cap_usd,volume_usd,timestamp\n" := by
  decide

lemma load_data_ok (df : DataFrame) (fs : FileSystem)
    (hw : fs.writable outputFile = true) :
    load_data df fs =
      (.ok (), [⟨.info, "Data loading successful. Data saved to " ++ outputFile⟩],
       { fs with contents :=
           fun p => if p = outputFile then some (to_csv df) else fs.contents p }) := by
  unfold load_data FileSystem.write
  rw [if_pos hw]

lemma extract_data_ok (data : List MarketRecord) :
    extract_data (fun _ => HttpOutcome.response 200 (some data)) =
      (.ok data, [⟨.info, "Data extraction successful."⟩]) := by
  simp [extract_data]

lemma etl_process_ok (data : List MarketRecord) (now : DateTime) (fs : FileSystem)
    (hw : fs.writable outputFile = true) :
    etl_process (fun _ => HttpOutcome.response 200 (some data)) now fs =
      (.ok (),
       [⟨.info, "ETL process started."⟩, ⟨.info, "Data extraction successful."⟩,
        ⟨.info, "Data transformation successful."⟩,
        ⟨.info, "Data loading successful. Data saved to " ++ outputFile⟩,
        ⟨.info, "ETL process completed."⟩],
       { fs with contents :=
           fun p => if p = outputFile then some (to_csv (transform_data data now).1)
                    else fs.contents p }) := by
  simp [etl_process, extract_data_ok, transform_data, load_data_ok _ _ hw]


lemma extract_data_error_log (api : Request → HttpOutcome) (e : PipeError)
    (lg : List LogEntry) (hx : extract_data api = (.error e, lg)) :
    lg = [⟨.error, "Error in data extraction: " ++ e.message⟩] := by
  unfold extract_data at hx
  split at hx
  · simp only [Prod.mk.injEq, Except.error.injEq] at hx
    obtain ⟨rfl, rfl⟩ := hx
    rfl
  · split at hx
    · simp only [Prod.mk.injEq, Except.error.injEq] at hx
      obtain ⟨rfl, rfl⟩ := hx
      rfl
    · split at hx
      · simp only [Prod.mk.injEq, Except.error.injEq] at hx
        obtain ⟨rfl, rfl⟩ := hx
        rfl
      · simp at hx

lemma etl_process_extract_error (api : Request → HttpOutcome) (now : DateTime)
    (fs : FileSystem) (e : PipeError) (lg : List LogEntry)
    (hx : extract_data api = (.error e, lg)) :
    etl_process api now fs = (.error e, [⟨.info, "ETL process started."⟩] ++ lg, fs) := by
  simp [etl_process, hx]

lemma load_data_error (df : DataFrame) (fs : FileSystem) (e : PipeError)
    (fs2 : FileSystem) (hw : fs.write outputFile (to_csv df) = (.error e, fs2)) :
    load_data df fs = (.error e, [⟨.error, "Error in data loading: " ++ e.message⟩], fs2) := by
  unfold load_data
  rw [hw]

lemma etl_process_load_error (api : Request → HttpOutcome) (now : DateTime)
    (fs : FileSystem) (data : List MarketRecord) (lg : List LogEntry)
    (e : PipeError) (fs2 : FileSystem)
    (hx : extract_data api = (.ok data, lg))
    (hw : fs.write outputFile (to_csv (transform_data data now).1) = (.error e, fs2)) :
    etl_process api now fs =
      (.error e, [⟨.info, "ETL process started."⟩] ++ lg ++
        [⟨.info, "Data transformation successful."⟩] ++
        [⟨.error, "Error in data loading: " ++ e.message⟩], fs2) := by
  have hld := load_data_error _ fs _ _ hw
  simp only [transform_data] at hld
  simp [etl_process, hx, transform_data, hld]

lemma etl_process_load_ok (api : Request → HttpOutcome) (now : DateTime)
    (fs : FileSystem) (data : List MarketRecord) (lg : List LogEntry)
    (u : Unit) (fs2 : FileSystem)
    (hx : extract_data api = (.ok data, lg))
    (hw : fs.write outputFile (to_csv (transform_data data now).1) = (.ok u, fs2)) :
    (etl_process api now fs).1 = .ok () := by
  have hw2 := hw
  simp only [transform_data] at hw2
  simp [etl_process, hx, transform_data, load_data, hw2]

/-- C3: the Transformer emits one output row per input record, in input
order: output length equals input length, and the row at every index `i`
is the projection of the input record at the same index `i`. -/
theorem c3_length_and_order (data : List MarketRecord) (now : DateTime) :
    (transform_data data now).1.rows.length = data.length ∧
    ∀ i : Nat, i < data.length →
      (transform_data data now).1.rows.get? i =
        (data.get? i).map (fun r =>
          [(List.lookup "id" r).getD Cell.nan,
           (List.lookup "symbol" r).getD Cell.nan,
           (List.lookup "current_price" r).getD Cell.nan,
           (List.lookup "market_cap" r).getD Cell.nan,
           (List.lookup "total_volume" r).getD Cell.nan,
           Cell.str (strftimeYmdHMS now)]) := by
  refine ⟨?_, ?_⟩
  · rw [transform_rows_eq]
    exact List.length_map _ _
  · intro i _
    rw [transform_rows_eq]
    exact List.get?_map _ _ _

theorem c3_witness :
    (transform_data [recMissingVolume] t0).1.rows.length =
      ([recMissingVolume] : List MarketRecord).length ∧
    (transform_data [recMissingVolume] t0).1.rows.get? 0 =
      (([recMissingVolume] : List MarketRecord).get? 0).map (fun r =>
        [(List.lookup "id" r).getD Cell.nan,
         (List.lookup "symbol" r).getD Cell.nan,
         (List.lookup "current_price" r).getD Cell.nan,
         (List.lookup "market_cap" r).getD Cell.nan,
         (List.lookup "total_volume" r).getD Cell.nan,
         Cell.str (strftimeYmdHMS t0)]) :=
  ⟨(c3_length_and_order [recMissingVolume] t0).1,
   (c3_length_and_order [recMissingVolume] t0).2 0 (by decide)⟩

/-- C2: within one Transformer invocation every output row carries the
same timestamp cell, the string computed from the single clock sample,
and that string matches the `YYYY-MM-DD HH:MM:SS` shape. -/
theorem c2_timestamp_uniform (data : List MarketRecord) (now : DateTime)
    (h : now.valid) :
    (∀ row ∈ (transform_data data now).1.rows,
        row.get? 5 = some (Cell.str (strftimeYmdHMS now))) ∧
    matchesTimestamp (strftimeYmdHMS now) = true := by
  refine ⟨?_, strftime_matchesTimestamp now⟩
  intro row hrow
  rw [transform_rows_eq] at hrow
  simp only [List.mem_map] at hrow
  obtain ⟨r, -, rfl⟩ := hrow
  rfl

set_option maxHeartbeats 2000000 in
theorem c2_witness :
    ([Cell.str "bitcoin", Cell.str "btc", Cell.num 65000, Cell.num 1200000000000,
        Cell.nan, Cell.str (strftimeYmdHMS t0)] : List Cell).get? 5 =
      some (Cell.str (strftimeYmdHMS t0)) ∧
    matchesTimestamp (strftimeYmdHMS t0) = true :=
  ⟨(c2_timestamp_uniform [recMissingVolume] t0 (by decide)).1 _ (by decide),
   (c2_timestamp_uniform [recMissingVolume] t0 (by decide)).2⟩

/-- C4: the transform's output schema is exactly the six renamed columns
in order, every row has exactly one cell per column, and the CSV the
Writer serializes starts with exactly that header line. -/
theorem c4_exact_schema (data : List MarketRecord) (now : DateTime) :
    (transform_data data now).1.columns =
      ["crypto_name", "symbol", "price_usd", "market_cap_usd", "volume_usd",
       "timestamp"] ∧
    (∀ row ∈ (transform_data data now).1.rows, row.length = 6) ∧
    ∃ rest, to_csv (transform_data data now).1 =
      "crypto_name,symbol,price_usd,market_cap_usd,volume_usd,timestamp\n" ++ rest := by
  refine ⟨rfl, ?_, ?_⟩
  · intro row hrow
    rw [transform_rows_eq] at hrow
    simp only [List.mem_map] at hrow
    obtain ⟨r, -, rfl⟩ := hrow
    rfl
  · refine ⟨String.join ((transform_data data now).1.rows.map
      (fun r => csvLine (r.map showCell))), ?_⟩
    show csvLine (transform_data data now).1.columns ++ _ = _
    rw [show (transform_data data now).1.columns =
      ["crypto_name", "symbol", "price_usd", "market_cap_usd", "volume_usd",
       "timestamp"] from rfl, csvHeaderLine]

set_option maxHeartbeats 2000000 in
theorem c4_witness :
    (transform_data [recMissingVolume] t0).1.columns =
      ["crypto_name", "symbol", "price_usd", "market_cap_usd", "volume_usd",
       "timestamp"] ∧
    ([Cell.str "bitcoin", Cell.str "btc", Cell.num 65000, Cell.num 1200000000000,
        Cell.nan, Cell.str (strftimeYmdHMS t0)] : List Cell).length = 6 :=
  ⟨(c4_exact_schema [recMissingVolume] t0).1,
   (c4_exact_schema [recMissingVolume] t0).2.1 _ (by decide)⟩

/-- C7: on a writable destination the Writer succeeds, the destination's
new contents are exactly the serialization of the given rows (whatever,
if anything, the path held before), and no other path changes. -/
theorem c7_full_overwrite (df : DataFrame) (fs : FileSystem)
    (hw : fs.writable outputFile = true) :
    (load_data df fs).1 = .ok () ∧
    (load_data df fs).2.2.contents outputFile = some (to_csv df) ∧
    ∀ p, p ≠ outputFile → (load_data df fs).2.2.contents p = fs.contents p := by
  rw [load_data_ok df fs hw]
  refine ⟨rfl, by simp, ?_⟩
  intro p hp
  simp [hp]

theorem c7_witness :
    (load_data dfEx fs0).1 = .ok () ∧
    (load_data dfEx fs0).2.2.contents outputFile = some (to_csv dfEx) ∧
    (load_data dfEx fs0).2.2.contents "logs/crypto_etl.log" =
      fs0.contents "logs/crypto_etl.log" :=
  ⟨(c7_full_overwrite dfEx fs0 rfl).1, (c7_full_overwrite dfEx fs0 rfl).2.1,
   (c7_full_overwrite dfEx fs0 rfl).2.2 "logs/crypto_etl.log" (by decide)⟩

/-- C9: writing the same DataFrame twice through the Writer leaves the
destination with byte-identical contents after each of the two writes. -/
theorem c9_writer_idempotent (df : DataFrame) (fs : FileSystem)
    (hw : fs.writable outputFile = true) :
    (load_data df fs).2.2.contents outputFile = some (to_csv df) ∧
    (load_data df ((load_data df fs).2.2)).2.2.contents outputFile =
      some (to_csv df) := by
  have hw2 : ((load_data df fs).2.2).writable outputFile = true := by
    rw [load_data_ok df fs hw]
    exact hw
  rw [load_data_ok df ((load_data df fs).2.2) hw2, load_data_ok df fs hw]
  simp

theorem c9_witness :
    (load_data dfEx fs0).2.2.contents outputFile = some (to_csv dfEx) ∧
    (load_data dfEx ((load_data dfEx fs0).2.2)).2.2.contents outputFile =
      some (to_csv dfEx) :=
  c9_writer_idempotent dfEx fs0 rfl

/-- C10: an empty fetch result is not an error anywhere: the Transformer
yields zero rows, the run completes, and the Writer leaves a CSV holding
the header line only. -/
theorem c10_empty_fetch_ok (now : DateTime) (fs : FileSystem)
    (hw : fs.writable outputFile = true) :
    (transform_data [] now).1.rows = [] ∧
    (etl_process (fun _ => HttpOutcome.response 200 (some [])) now fs).1 = .ok () ∧
    (etl_process (fun _ => HttpOutcome.response 200 (some [])) now fs).2.2.contents
        outputFile =
      some "crypto_name,symbol,price_usd,market_cap_usd,volume_usd,timestamp\n" := by
  rw [etl_process_ok [] now fs hw]
  exact ⟨rfl, rfl, rfl⟩

theorem c10_witness :
    (transform_data [] t0).1.rows = [] ∧
    (etl_process (fun _ => HttpOutcome.response 200 (some [])) t0 fs0).1 = .ok () ∧
    (etl_process (fun _ => HttpOutcome.response 200 (some [])) t0 fs0).2.2.contents
        outputFile =
      some "crypto_name,symbol,price_usd,market_cap_usd,volume_usd,timestamp\n" :=
  c10_empty_fetch_ok t0 fs0 rfl

/-- C8: the Fetcher's one request is the fixed endpoint with exactly the
five fixed query parameters, and the extraction's entire behavior is a
function of the response to that single request alone. -/
theorem c8_fixed_single_request :
    apiRequest.url = "https://api.coingecko.com/api/v3/coins/markets" ∧
    apiRequest.params = [("vs_currency", "usd"), ("order", "market_cap_desc"),
      ("per_page", "10"), ("page", "1"), ("sparkline", "false")] ∧
    ∀ api api2 : Request → HttpOutcome,
      api apiRequest = api2 apiRequest → extract_data api = extract_data api2 := by
  refine ⟨rfl, rfl, ?_⟩
  intro api api2 hsame
  unfold extract_data
  rw [hsame]

theorem c8_witness :
    extract_data (fun _ => HttpOutcome.response 200 (some [])) =
      extract_data (fun r =>
        if r.url = "" then HttpOutcome.netFailure "no host"
        else HttpOutcome.response 200 (some [])) :=
  c8_fixed_single_request.2.2 _ _ rfl


/-- C5: whenever a run fails, the failure was logged at ERROR level with
the underlying cause at its detection point, the very error a stage
produced is the one the driver surfaces (no stage swallows or replaces
it), and after a Fetcher failure the snapshot file is untouched because
the Writer never ran. -/
theorem c5_fail_fast_logged (api : Request → HttpOutcome) (now : DateTime)
    (fs : FileSystem) (e : PipeError)
    (h : (etl_process api now fs).1 = .error e) :
    (LogEntry.mk .error ("Error in data extraction: " ++ e.message) ∈
        (etl_process api now fs).2.1 ∨
     LogEntry.mk .error ("Error in data loading: " ++ e.message) ∈
        (etl_process api now fs).2.1) ∧
    ((extract_data api).1 = .error e ∨
      ∃ data, (extract_data api).1 = .ok data ∧
        (fs.write outputFile (to_csv (transform_data data now).1)).1 = .error e) ∧
    ((extract_data api).1 = .error e → (etl_process api now fs).2.2 = fs) := by
  rcases hx : extract_data api with ⟨rx, lgx⟩
  cases rx with
  | error e0 =>
      have hlg := extract_data_error_log api e0 lgx hx
      subst hlg
      have hetl := etl_process_extract_error api now fs e0 _ hx
      rw [hetl] at h
      obtain rfl : e0 = e := by simpa using h
      refine ⟨?_, ?_, fun _ => by rw [hetl]⟩
      · left
        rw [hetl]
        simp
      · left
        rfl
  | ok data =>
      rcases hw : fs.write outputFile (to_csv (transform_data data now).1)
        with ⟨wres, fs2⟩
      cases wres with
      | ok u =>
          have := etl_process_load_ok api now fs data lgx u fs2 hx hw
          rw [h] at this
          simp at this
      | error e0 =>
          have hetl := etl_process_load_error api now fs data lgx e0 fs2 hx hw
          rw [hetl] at h
          obtain rfl : e0 = e := by simpa using h
          refine ⟨?_, ?_, ?_⟩
          · right
            rw [hetl]
            simp
          · right
            exact ⟨data, rfl, by rw [hw]⟩
          · intro hc
            simp at hc

theorem c5_witness :
    (LogEntry.mk .error ("Error in data extraction: " ++
        (PipeError.requestError "Connection timed out").message) ∈
          (etl_process apiNetFail t0 fs0).2.1 ∨
     LogEntry.mk .error ("Error in data loading: " ++
        (PipeError.requestError "Connection timed out").message) ∈
          (etl_process apiNetFail t0 fs0).2.1) ∧
    (etl_process apiNetFail t0 fs0).2.2 = fs0 :=
  ⟨(c5_fail_fast_logged apiNetFail t0 fs0 (.requestError "Connection timed out") rfl).1,
   (c5_fail_fast_logged apiNetFail t0 fs0
      (.requestError "Connection timed out") rfl).2.2 rfl⟩

/-- C6 counterexample: the claim says every non-2xx status fails the
Fetcher, but `raise_for_status` raises only for 4xx/5xx. For a final
status 300 with a well-formed JSON body the Fetcher returns the parsed
data, logs success, and the run completes. -/
theorem c6_counterexample :
    (extract_data api300).1 = .ok [] ∧
    LogEntry.mk .info "Data extraction successful." ∈ (extract_data api300).2 ∧
    (etl_process api300 t0 fs0).1 = .ok () := by
  refine ⟨rfl, ?_, rfl⟩
  decide

/-- C6 (amended): when the request fails at transport level, the status
is 4xx/5xx, or the body is malformed, extraction fails with the error
carrying the underlying cause, the failure is logged at ERROR before
propagating, the run aborts with that same error, no data row is
produced, and the filesystem is untouched. -/
theorem c6_extract_failure_modes (api : Request → HttpOutcome) (now : DateTime)
    (fs : FileSystem) (h : failCondition (api apiRequest)) :
    (extract_data api).1 = .error (errorOf (api apiRequest)) ∧
    LogEntry.mk .error ("Error in data extraction: " ++
        (errorOf (api apiRequest)).message) ∈ (extract_data api).2 ∧
    (etl_process api now fs).1 = .error (errorOf (api apiRequest)) ∧
    (etl_process api now fs).2.2 = fs := by
  cases hapi : api apiRequest with
  | netFailure c =>
      have hx : extract_data api =
          (.error (.requestError c),
           [⟨.error, "Error in data extraction: " ++ (PipeError.requestError c).message⟩]) := by
        simp [extract_data, hapi]
      have hetl := etl_process_extract_error api now fs _ _ hx
      simp [errorOf, hx, hetl]
  | response st body =>
      rw [hapi] at h
      simp only [failCondition] at h
      by_cases h4 : 400 ≤ st ∧ st < 600
      · have hx : extract_data api =
            (.error (.httpError st),
             [⟨.error, "Error in data extraction: " ++ (PipeError.httpError st).message⟩]) := by
          simp only [extract_data, hapi]
          rw [if_pos h4]
        have hetl := etl_process_extract_error api now fs _ _ hx
        simp [errorOf, if_pos h4, hx, hetl]
      · obtain h5 | h5 := h
        · exact absurd h5 h4
        · subst h5
          have hx : extract_data api =
              (.error .jsonDecodeError,
               [⟨.error, "Error in data extraction: " ++ PipeError.jsonDecodeError.message⟩]) := by
            simp only [extract_data, hapi]
            rw [if_neg h4]
          have hetl := etl_process_extract_error api now fs _ _ hx
          simp [errorOf, if_neg h4, hx, hetl]

theorem c6_witness :
    (extract_data apiNetFail).1 = .error (errorOf (apiNetFail apiRequest)) ∧
    LogEntry.mk .error ("Error in data extraction: " ++
        (errorOf (apiNetFail apiRequest)).message) ∈ (extract_data apiNetFail).2 ∧
    (etl_process apiNetFail t0 fs0).1 = .error (errorOf (apiNetFail apiRequest)) ∧
    (etl_process apiNetFail t0 fs0).2.2 = fs0 :=
  c6_extract_failure_modes apiNetFail t0 fs0 (by simp [apiNetFail, failCondition])

set_option maxHeartbeats 2000000 in
/-- C1 counterexample: on a record lacking `total_volume` the claim says
the Transformer aborts and the Writer never runs; in fact pandas fills
the missing field with `NaN`, the run completes, and the Writer writes
the row with an empty `volume_usd` field. -/
theorem c1_counterexample :
    (etl_process apiOkOneRecord t0 fs0).1 = .ok () ∧
    (etl_process apiOkOneRecord t0 fs0).2.2.contents outputFile =
      some ("crypto_name,symbol,price_usd,market_cap_usd,volume_usd,timestamp\n" ++
        "bitcoin,btc,65000.0,1200000000000.0,,2026-10-12 09:30:05\n") := by
  exact ⟨rfl, by decide⟩

/-- C1 (amended): a record lacking the `total_volume` field is not a
failure: the Transformer yields a row whose `volume_usd` cell is `NaN`,
the run completes, and the Writer is invoked, writing the serialized
rows to the destination. -/
theorem c1_missing_field_not_fatal (rec : MarketRecord) (now : DateTime)
    (fs : FileSystem)
    (hmiss : List.lookup "total_volume" rec = none)
    (hw : fs.writable outputFile = true) :
    (transform_data [rec] now).1.rows.map (fun row => row.get? 4) =
      [some Cell.nan] ∧
    (etl_process (fun _ => HttpOutcome.response 200 (some [rec])) now fs).1 =
      .ok () ∧
    (etl_process (fun _ => HttpOutcome.response 200 (some [rec])) now fs).2.2.contents
        outputFile =
      some (to_csv (transform_data [rec] now).1) := by
  refine ⟨?_, ?_, ?_⟩
  · rw [transform_rows_eq]
    simp [hmiss]
  · rw [etl_process_ok [rec] now fs hw]
  · rw [etl_process_ok [rec] now fs hw]
    simp

theorem c1_witness :
    (transform_data [recMissingVolume] t0).1.rows.map (fun row => row.get? 4) =
      [some Cell.nan] ∧
    (etl_process (fun _ => HttpOutcome.response 200 (some [recMissingVolume])) t0 fs0).1 =
      .ok () ∧
    (etl_process (fun _ => HttpOutcome.response 200 (some [recMissingVolume])) t0
          fs0).2.2.contents outputFile =
      some (to_csv (transform_data [recMissingVolume] t0).1) :=
  c1_missing_field_not_fatal recMissingVolume t0 fs0 (by decide) rfl

end CryptoETL
